import Mathlib

/-!
Verification development for the plotting module of the dynamo repository
(files dynamo/plot/preprocess.py and dynamo/plot/scatters.py).

The Python code is shallowly embedded: matrices (numpy dense arrays and scipy
sparse matrices) become the inductive `Mat` over exact rationals, the AnnData
object becomes the structure `AnnData` of association lists, and each plotting
function becomes a Lean function returning `Except PyErr Plot`.  Raising a
Python exception is modelled as returning `Except.error`; the distinct Python
exception classes that the code can raise (Exception, ValueError,
AttributeError, NameError, KeyError, IndexError) are the constructors of
`PyErr`.

Conventions used throughout the embedding:
* Python `a is b` on strings is modelled as string equality.  Everywhere the
  source uses `is` on strings, either both operands are interned literals
  (where CPython identity agrees with equality) or the compared value is a
  freshly concatenated string whose length already differs from the literal
  (where both identity and equality are false), so the modelling is faithful
  at every comparison the code performs.
* Floating point arithmetic is modelled over the rationals.
* numpy row sums (`np.sum(mat, 1)` and `mat.sum(1)`) are modelled by their
  value vectors; the 1-D versus 2-D shape distinction between the dense and
  sparse results is not modelled, so theorems about code paths that mix a
  sparse and a dense layer in one arithmetic expression carry an explicit
  same-storage hypothesis.
-/

/-- Python exception classes that the embedded code can raise. -/
inductive PyErr where
  | exception (msg : String)
  | valueError (msg : String)
  | attributeError (msg : String)
  | nameError (msg : String)
  | keyError (key : String)
  | indexError (msg : String)
deriving Repr, DecidableEq

/-- Value stored at column j of a sparse row (sum of the stored entries with
that column index, matching scipy semantics where duplicate entries add). -/
def sparseRowVal (r : List (ℕ × ℚ)) (j : ℕ) : ℚ :=
  ((r.filter (fun e => e.1 == j)).map Prod.snd).sum

/-- A cells-by-genes matrix: either a dense numpy array (list of rows) or a
scipy sparse matrix (column count plus, for each row, its stored entries). -/
inductive Mat where
  | dense (rows : List (List ℚ))
  | sparse (ncols : ℕ) (rows : List (List (ℕ × ℚ)))
deriving Repr, DecidableEq

/-- Model of scipy.sparse.issparse. -/
def Mat.issparse : Mat → Bool
  | .dense _ => false
  | .sparse _ _ => true

/-- Dense row list of a matrix (model of .A / todense for sparse input). -/
def Mat.denseRows : Mat → List (List ℚ)
  | .dense rows => rows
  | .sparse n rows => rows.map (fun r => (List.range n).map (fun j => sparseRowVal r j))

/-- Row-sum vector: the values of numpy np.sum(mat, 1) for a dense array and
of mat.sum(1) for a sparse matrix. -/
def Mat.rowSums : Mat → List ℚ
  | .dense rows => rows.map List.sum
  | .sparse _ rows => rows.map (fun r => (r.map Prod.snd).sum)

/-- Model of the source expression mat.sum(1).A1.  A scipy sparse matrix sums
to a numpy matrix, which has the A1 attribute; a dense numpy ndarray sums to
an ndarray, which does not, so the attribute access raises AttributeError. -/
def Mat.sum1A1 : Mat → Except PyErr (List ℚ)
  | .dense _ => .error (.attributeError "ndarray object has no attribute A1")
  | .sparse _ rows => .ok ((Mat.sparse 0 rows).rowSums)

/-- Dense-path per-cell sums of the source: np.sum(mat, 1) on a dense array. -/
def np_sum_axis1 (rows : List (List ℚ)) : List ℚ :=
  rows.map List.sum

/-- Sparse-path per-cell sums of the source: mat.sum(1).A1 on a sparse matrix. -/
def sparse_sum1_A1 (rows : List (List (ℕ × ℚ))) : List ℚ :=
  rows.map (fun r => (r.map Prod.snd).sum)

/-- The dense array holding the same values as a sparse matrix with the given
column count. -/
def sparse_to_dense (n : ℕ) (rows : List (List (ℕ × ℚ))) : List (List ℚ) :=
  rows.map (fun r => (List.range n).map (fun j => sparseRowVal r j))

/-- Channel extractor red of scatters.py: (x & 0xFF0000) >> 16. -/
def _red (x : ℕ) : ℕ :=
  (x &&& 0xFF0000) >>> 16

/-- Channel extractor green of scatters.py: (x & 0x00FF00) >> 8. -/
def _green (x : ℕ) : ℕ :=
  (x &&& 0x00FF00) >>> 8

/-- Channel extractor blue of scatters.py: x & 0x0000FF. -/
def _blue (x : ℕ) : ℕ :=
  x &&& 0x0000FF

/-- Insertion of an element into a sorted list of rationals. -/
def insertSorted (x : ℚ) : List ℚ → List ℚ
  | [] => [x]
  | y :: ys => if x ≤ y then x :: y :: ys else y :: insertSorted x ys

/-- Ascending sort, modelling the sort performed inside numpy percentile. -/
def pySort (xs : List ℚ) : List ℚ :=
  xs.foldr insertSorted []

/-- Collapse of adjacent duplicates in a sorted list. -/
def uniqSorted : List ℚ → List ℚ
  | [] => []
  | [x] => [x]
  | x :: y :: ys => if x = y then uniqSorted (y :: ys) else x :: uniqSorted (y :: ys)

/-- Model of numpy np.unique: the sorted distinct values. -/
def np_unique (xs : List ℚ) : List ℚ :=
  uniqSorted (pySort xs)

/-- Model of numpy percentile with the default linear interpolation: the
value at fractional position q * (n - 1) / 100 of the sorted data. -/
def np_percentile (v : List ℚ) (q : ℚ) : ℚ :=
  let s := pySort v
  let pos : ℚ := q * ((s.length : ℚ) - 1) / 100
  let i : ℕ := (Int.floor pos).toNat
  let lo := s.getD i 0
  let hi := s.getD (i + 1) lo
  lo + (pos - (i : ℚ)) * (hi - lo)

/-- Model of numpy np.clip on a scalar. -/
def np_clip (x lo hi : ℚ) : ℚ :=
  min (max x lo) hi

/-- The saturation limit of the velocity panels, from the source line
limit = np.nanmax(np.abs(np.nanpercentile(V_vec, [1, 99]))). -/
def velocity_limit (v : List ℚ) : ℚ :=
  max |np_percentile v 1| |np_percentile v 99|

/-- The velocity colour normalisation of phase_portraits (preprocess.py lines
357 to 361) and scatters (scatters.py lines 412 to 416): shift by the limit,
divide by twice the limit, clip to the unit interval. -/
def normalize_velocity (v : List ℚ) : List ℚ :=
  let limit := velocity_limit v
  (v.map (fun t => (t + limit) / (2 * limit))).map (fun t => np_clip t 0 1)

/-- Model of numpy np.linspace with num points (num = 50 is the numpy
default used by the source). -/
def np_linspace (start stop : ℚ) (num : ℕ) : List ℚ :=
  (List.range num).map (fun (i : ℕ) => start + (stop - start) * (i : ℚ) / ((num : ℚ) - 1))

/-- Maximum of a pandas numeric column (0 for the empty column). -/
def pd_max : List ℚ → ℚ
  | [] => 0
  | x :: xs => xs.foldl max x

/-- Model of a numpy binary elementwise operation with broadcasting between
two 1-D arrays: equal lengths operate elementwise, a length-1 operand is
broadcast, and any other shape pair raises ValueError. -/
def np_bcast (f : ℚ → ℚ → ℚ) (a b : List ℚ) : Except PyErr (List ℚ) :=
  if a.length = b.length then .ok (List.zipWith f a b)
  else if a.length = 1 then .ok (b.map (fun y => f (a.getD 0 0) y))
  else if b.length = 1 then .ok (a.map (fun x => f x (b.getD 0 0)))
  else .error (.valueError "operands could not be broadcast together")

/-- The overlaid fit line of the phase portrait panels, from the source lines
xnew = np.linspace(0, cur_pd.iloc[:, 1].max()) and
ax1.plot(xnew, xnew * cur_pd.loc[:, gamma].unique() + cur_pd.loc[:, velocity_offset].unique())
(preprocess.py lines 346 to 347 and scatters.py lines 387 to 388), given the
gamma column, the velocity_offset column and the x-axis data column of the
per-gene sub-dataframe. -/
def phase_fit_line (gammaCol offsetCol xcol : List ℚ) : Except PyErr (List ℚ) := do
  let xnew := np_linspace 0 (pd_max xcol) 50
  let a ← np_bcast (fun p q => p * q) xnew (np_unique gammaCol)
  np_bcast (fun p q => p + q) a (np_unique offsetCol)

/-- Statement of the spec sentence for the fit overlay: the linear fit
y = gamma * x + offset evaluated on the 50-point linspace from 0 to m. -/
def spec_fit_line (gamma offset m : ℚ) : List ℚ :=
  (np_linspace 0 m 50).map (fun x => gamma * x + offset)

/-- Association-list lookup, modelling Python mapping access that returns a
value or misses. -/
def alookup {α : Type} (kvs : List (String × α)) (k : String) : Option α :=
  (kvs.find? (fun kv => kv.1 == k)).map Prod.snd

/-- Key list of a mapping (Python .keys()). -/
def keysOf {α : Type} (kvs : List (String × α)) : List String :=
  kvs.map Prod.fst

/-- Membership test for a key (Python k in mapping.keys()). -/
def hasKey {α : Type} (kvs : List (String × α)) (k : String) : Bool :=
  (alookup kvs k).isSome

/-- Python subscript access mapping[k], raising KeyError when the key is
absent. -/
def getItem {α : Type} (kvs : List (String × α)) (k : String) : Except PyErr α :=
  match alookup kvs k with
  | some v => .ok v
  | none => .error (.keyError k)

/-- The in-memory annotated data object (anndata.AnnData) as the plotting
code reads it: the main matrix X, layers, per-cell (obs) and per-gene (var)
numeric columns with their indices, per-cell multidimensional annotations
(obsm) and unstructured annotations (uns, numeric arrays only, which is all
the embedded code reads apart from the dispFitInfo fit whose presence alone
matters here). -/
structure AnnData where
  X : Mat
  obs_index : List String
  obs : List (String × List ℚ)
  var_index : List String
  var : List (String × List ℚ)
  layers : List (String × Mat)
  obsm : List (String × Mat)
  uns : List (String × List ℚ)
deriving Repr, DecidableEq

/-- What a show_fraction call produces when it does not raise: the fraction
columns of the dataframe behind the violin plot, plus whether the plot was
faceted by a group. -/
inductive Plot where
  | violinData (cols : List (String × List ℚ)) (grouped : Bool)
  | varianceLine (cumvar : List ℚ) (n_comps : ℕ)
  | featureFig (mean_expression dispersion_empirical : List ℚ)
  | portraitFig (cols : List (String × List ℚ)) (gene : List String)
  | scatterFig (cols : List (String × List ℚ)) (gene : List String)
deriving Repr, DecidableEq

/-- Elementwise vector addition (numpy + on two equal-length 1-D arrays). -/
def vadd (a b : List ℚ) : List ℚ :=
  List.zipWith (fun p q => p + q) a b

/-- Elementwise vector division (numpy / on two equal-length 1-D arrays). -/
def vdiv (a b : List ℚ) : List ℚ :=
  List.zipWith (fun p q => p / q) a b

/-- Message of the mode-validation exception of show_fraction (line 30) and
phase_portraits (line 234). -/
def modeErrMsg : String :=
  "mode can be only one of the labelling, splicing or full"

/-- Message of the corrupted-adata exception of show_fraction (lines 92-93). -/
def corruptedMsg : String :=
  "Your adata is corrupted. Make sure that your layer has keys new, total for the labelling mode, spliced, (ambiguous, optional), unspliced for the splicing model and uu, ul, su, sl for the full mode"

/-- Message of the ValueError that CPython raises when a 3-element tuple is
unpacked into 2 names (show_fraction lines 35-36). -/
def unpack2Msg : String :=
  "too many values to unpack (expected 2)"

/-- Message of the ValueError that CPython raises when a 7-element tuple is
unpacked into 4 names (show_fraction lines 78-79). -/
def unpack4Msg : String :=
  "too many values to unpack (expected 4)"

/-- Labelling branch of show_fraction (lines 32 to 46).  The right-hand side
of the assignment on lines 35-36 parses as a 3-element tuple
(np.sum(new_mat, 1),
 np.sum(total_mat, 1) if not issparse(new_mat) else new_mat.sum(1).A1,
 total_mat.sum(1).A1)
whose elements CPython evaluates left to right before unpacking them into the
two names new_cell_sum, tot_cell_sum.  The third element raises
AttributeError when the total layer is dense; otherwise the unpacking of
three values into two names raises ValueError.  The fraction computation on
lines 38-46 is therefore unreachable. -/
def labellingBranch (adata : AnnData) : Except PyErr Plot := do
  let new_mat ← getItem adata.layers "new"
  let total_mat ← getItem adata.layers "total"
  let _e1 := new_mat.rowSums
  let _e2 ← (if ¬ new_mat.issparse then .ok total_mat.rowSums else new_mat.sum1A1 :
    Except PyErr (List ℚ))
  let _e3 ← total_mat.sum1A1
  .error (.valueError unpack2Msg)

/-- Splicing branch of show_fraction (lines 48 to 74).  The same-storage
remark in the file header applies: the branch on line 55 chooses the dense or
the sparse summation for both layers from issparse(unspliced_mat) alone. -/
def splicingBranch (adata : AnnData) (group : Option String) : Except PyErr Plot := do
  let ambiguous ←
    (if hasKey adata.layers "ambiguous" then getItem adata.layers "ambiguous"
     else do
       let u ← getItem adata.layers "unspliced"
       .ok (if (Mat.issparse u) then Mat.sparse 1 [[]] else Mat.dense [[0]]))
  let unspliced_mat ← getItem adata.layers "unspliced"
  let spliced_mat ← getItem adata.layers "spliced"
  let sums ← (if ¬ unspliced_mat.issparse then
      .ok (unspliced_mat.rowSums, spliced_mat.rowSums)
    else do
      let a ← unspliced_mat.sum1A1
      let b ← spliced_mat.sum1A1
      .ok (a, b) : Except PyErr (List ℚ × List ℚ))
  let un_cell_sum := sums.1
  let sp_cell_sum := sums.2
  let grouped := match group with
    | none => false
    | some g => hasKey adata.obs g
  if hasKey adata.layers "ambiguous" then do
    let am_cell_sum ← (if unspliced_mat.issparse then ambiguous.sum1A1
      else .ok ambiguous.rowSums : Except PyErr (List ℚ))
    let tot_cell_sum := vadd (vadd un_cell_sum sp_cell_sum) am_cell_sum
    let un_frac_cell := vdiv un_cell_sum tot_cell_sum
    let sp_frac_cell := vdiv sp_cell_sum tot_cell_sum
    let am_frac_cell := vdiv am_cell_sum tot_cell_sum
    .ok (.violinData
      [("unspliced", un_frac_cell), ("spliced", sp_frac_cell), ("ambiguous", am_frac_cell)]
      grouped)
  else
    let tot_cell_sum := vadd un_cell_sum sp_cell_sum
    let un_frac_cell := vdiv un_cell_sum tot_cell_sum
    let sp_frac_cell := vdiv sp_cell_sum tot_cell_sum
    .ok (.violinData [("unspliced", un_frac_cell), ("spliced", sp_frac_cell)] grouped)

/-- Full branch of show_fraction (lines 76 to 89).  The right-hand side of
the assignment on lines 78-79 parses as a 7-element tuple
(np.sum(uu, 1), np.sum(ul, 1), np.sum(su, 1),
 np.sum(sl, 1) if not issparse(uu) else uu.sum(1).A1,
 ul.sum(1).A1, su.sum(1).A1, sl.sum(1).A1)
whose elements CPython evaluates left to right before unpacking them into
four names; the trailing .A1 accesses raise AttributeError on dense layers,
and otherwise the unpacking of seven values into four names raises
ValueError, so lines 81 to 89 are unreachable. -/
def fullBranch (adata : AnnData) : Except PyErr Plot := do
  let uu ← getItem adata.layers "uu"
  let ul ← getItem adata.layers "ul"
  let su ← getItem adata.layers "su"
  let sl ← getItem adata.layers "sl"
  let _e1 := uu.rowSums
  let _e2 := ul.rowSums
  let _e3 := su.rowSums
  let _e4 ← (if ¬ uu.issparse then .ok sl.rowSums else uu.sum1A1 : Except PyErr (List ℚ))
  let _e5 ← ul.sum1A1
  let _e6 ← su.sum1A1
  let _e7 ← sl.sum1A1
  .error (.valueError unpack4Msg)

/-- Embedding of show_fraction (preprocess.py lines 9 to 104): the mode
validation, the three mode branches guarded by the presence of their layer
keys, and the corrupted-adata exception of the trailing else.  The returned
Plot carries the fraction columns handed to the violin plot. -/
def show_fraction_res (adata : AnnData) (mode : String) (group : Option String) :
    Except PyErr Plot :=
  if ¬ (mode = "labelling" ∨ mode = "splicing" ∨ mode = "full") then
    .error (.exception modeErrMsg)
  else if mode = "labelling" ∧ (["new", "total"].all (fun i => hasKey adata.layers i)) then
    labellingBranch adata
  else if mode = "splicing" ∧ (["spliced", "unspliced"].all (fun i => hasKey adata.layers i)) then
    splicingBranch adata group
  else if mode = "full" ∧ (["uu", "ul", "su", "sl"].all (fun i => hasKey adata.layers i)) then
    fullBranch adata
  else
    .error (.exception corruptedMsg)

/-- State-passing form of show_fraction.  The source assigns to no attribute
of adata (every access to adata on lines 9 to 104 is a read), so the object
is returned unchanged alongside the outcome. -/
def show_fraction (adata : AnnData) (mode : String) (group : Option String) :
    AnnData × Except PyErr Plot :=
  (adata, show_fraction_res adata mode group)

/-- Column count of a matrix (for the dense case, of its first row; the
embedded matrices are rectangular). -/
def Mat.ncols : Mat → ℕ
  | .dense rows => (rows.headD []).length
  | .sparse n _ => n

/-- Column j of a matrix, modelling mat[:, j]; numpy raises IndexError when
the index is out of bounds. -/
def Mat.getCol (m : Mat) (j : ℕ) : Except PyErr (List ℚ) :=
  if j < m.ncols then
    .ok (match m with
      | .dense rows => rows.map (fun r => r.getD j 0)
      | .sparse _ rows => rows.map (fun r => sparseRowVal r j))
  else .error (.indexError "index out of bounds")

/-- Gene-wise column subset, modelling adata[:, genes] applied to X or to a
layer.  The storage kind of the input is preserved. -/
def Mat.selectCols (m : Mat) (js : List ℕ) : Mat :=
  match m with
  | .dense rows => .dense (rows.map (fun r => js.map (fun j => r.getD j 0)))
  | .sparse _ rows =>
      .sparse js.length (rows.map (fun r => js.enum.map (fun p => (p.1, sparseRowVal r p.2))))

/-- Row-major flattening of a matrix, modelling mat.A.flatten() (the sparse
case is densified first, exactly as the source does). -/
def Mat.flat (m : Mat) : List ℚ :=
  m.denseRows.flatten

/-- Elementwise sum of two matrices as numpy would densify it (used by the
full-mode dataframe columns such as ul + sl). -/
def Mat.add (a b : Mat) : Mat :=
  .dense (List.zipWith (fun r s => List.zipWith (fun p q => p + q) r s) a.denseRows b.denseRows)

/-- Test for a prefix of a character list. -/
def listIsPre : List Char → List Char → Bool
  | [], _ => true
  | _ :: _, [] => false
  | x :: xs, y :: ys => x == y && listIsPre xs ys

/-- Test for a contiguous occurrence of the first character list inside the
second. -/
def listSub (a : List Char) : List Char → Bool
  | [] => a.isEmpty
  | y :: ys => listIsPre a (y :: ys) || listSub a ys

/-- Model of the Python substring operator needle in hay. -/
def strContains (needle hay : String) : Bool :=
  listSub needle.toList hay.toList

/-- Model of adata.var.index[adata.var.index.isin(genes)].tolist(). -/
def matchedGenes (adata : AnnData) (genes : List String) : List String :=
  adata.var_index.filter (fun g => genes.contains g)

/-- Model of np.where(adata.var.index.isin(genes))[0]. -/
def matchedIdx (adata : AnnData) (genes : List String) : List ℕ :=
  ((adata.var_index.enum).filter (fun p => genes.contains p.2)).map Prod.fst

/-- Model of np.tile(v, n) for a 1-D array. -/
def npTile (v : List ℚ) (n : ℕ) : List ℚ :=
  (List.replicate n v).flatten

/-- Shared E_vec computation of scatters (lines 182 to 190) and
phase_portraits (lines 236 to 244): when ekey names a layer, X or a protein
slot the expression matrix is read, otherwise the name E_vec stays unbound
(modelled by none).  The obsm slots are per-cell and unaffected by the
gene subset. -/
def compute_E_vec (adata : AnnData) (idx : List ℕ) (ekey : String) :
    Except PyErr (Option Mat) :=
  if ekey ∈ (keysOf adata.layers ++ ["X", "protein", "X_protein"]) then
    if ekey = "X" then .ok (some (adata.X.selectCols idx))
    else if ekey = "protein" ∨ ekey = "X_protein" then do
      let m ← getItem adata.obsm ekey
      .ok (some m)
    else do
      let m ← getItem adata.layers ekey
      .ok (some (m.selectCols idx))
  else .ok none

/-- Message of the missing-genes exception (preprocess.py line 225 and
scatters.py line 164). -/
def noGenesMsg : String :=
  "adata has no genes listed in your input gene vector"

/-- Message of the missing-basis exception (preprocess.py line 227 and
scatters.py line 166). -/
def basisMsg (basis : String) : String :=
  basis ++ " is not applied to adata."

/-- Message of the mode-detection exception of scatters (lines 179-180). -/
def properModeMsg : String :=
  "your data should be in one of the proper mode: labelling (has X_new/X_total layers), splicing (has X_spliced/X_unspliced layers) or full (has X_uu/X_ul/X_su/X_sl layers)"

/-- Message of the vkey exception of scatters (line 219). -/
def vkeyScattersMsg (v : String) : String :=
  "adata has no vkey " ++ v ++ " in either the layers or the obsm attribute"

/-- Message of the vkey exception of phase_portraits (line 261). -/
def vkeyPortraitsMsg (v : String) : String :=
  "adata has no vkey " ++ v ++ " in either the layers or the obsm slot"

/-- Message of the missing-gamma exception of scatters (lines 229-230). -/
def gammaScattersMsg : String :=
  "adata does not seem to have gamma column. Velocity estimation is required before running this function."

/-- Message of the missing-gamma exception of phase_portraits (lines 271-272
and 299-301). -/
def gammaPortraitsMsg : String :=
  "adata does not seem to have velocity_gamma column. Velocity estimation is required before running this function."

/-- Message of the corrupted-adata exception at the dataframe dispatch of
phase_portraits (lines 320-321) and scatters (lines 278-279). -/
def corruptedDfMsg : String :=
  "Your adata is corrupted. Make sure that your layer has keys new, old for the labelling mode, spliced, ambiguous, unspliced for the splicing model and uu, ul, su, sl for the full mode"

/-- Error of a pandas DataFrame constructor whose columns disagree with the
index length. -/
def pdLenErr : PyErr :=
  .valueError "Length of values does not match length of index"

/-- Length check of a DataFrame built with index=range(len): every numeric
column, the gene column and the color column must have that length. -/
def dfLenOk (len : ℕ) (cols : List (String × List ℚ)) (gene : List String)
    (colorLen : ℕ) : Bool :=
  cols.all (fun c => c.2.length = len) && gene.length == len && colorLen == len

/-- Embedding of phase_portraits (preprocess.py lines 185 to 407): gene and
basis validation, embedding column reads, mode validation, expression and
velocity reads, gamma parameters and the construction of the long dataframe
feeding the panels.  The rendering loop (lines 323 to 407) performs reads and
drawing only; its two arithmetic transforms are the separately embedded
normalize_velocity and phase_fit_line. -/
def phase_portraits_res (adata : AnnData) (genes : List String) (x y : ℕ) (mode : String)
    (vkey ekey basis : String) (color : Option (List String)) : Except PyErr Plot := do
  let genes' := matchedGenes adata genes
  let idx := matchedIdx adata genes
  if genes'.isEmpty then
    .error (.exception noGenesMsg)
  else if ¬ hasKey adata.obsm ("X_" ++ basis) then
    .error (.exception (basisMsg basis))
  else do
  let xb ← getItem adata.obsm ("X_" ++ basis)
  let _dim_1 ← xb.getCol x
  let _dim_2 ← xb.getCol y
  if ¬ (mode = "labelling" ∨ mode = "splicing" ∨ mode = "full") then
    .error (.exception modeErrMsg)
  else do
  let E_vec ← compute_E_vec adata idx ekey
  let n_cells := adata.obs_index.length
  let n_genes := genes'.length
  -- lines 248-250: color_vec is the nan vector or, when color is given, the
  -- list of obs keys occurring in color (the source stores the key list
  -- itself, not an obs column)
  let color_vec : Option (List String) :=
    color.map (fun cs => cs.filter (fun c => hasKey adata.obs c))
  let vp ← (if vkey = "U" then do
      let v ← getItem adata.layers "velocity_U"
      if hasKey adata.obsm "velocity_P" then
        -- line 255 accesses adata.layer, an attribute AnnData does not have
        .error (.attributeError "AnnData object has no attribute layer")
      else .ok (v.selectCols idx, (none : Option Mat))
    else if vkey = "S" then do
      let v ← getItem adata.layers "velocity_S"
      if hasKey adata.obsm "velocity_P" then do
        let p ← getItem adata.layers "velocity_P"
        .ok (v.selectCols idx, some (p.selectCols idx))
      else .ok (v.selectCols idx, (none : Option Mat))
    else .error (.exception (vkeyPortraitsMsg vkey)) : Except PyErr (Mat × Option Mat))
  let V_vec := vp.1
  let P_vec := vp.2
  -- line 263 reads E_vec, which is unbound when ekey matched no slot
  let Ev ← (match E_vec with
    | none => .error (.nameError "name E_vec is not defined")
    | some m => .ok m : Except PyErr Mat)
  if ¬ hasKey adata.var "velocity_parameter_gamma" then
    .error (.exception gammaPortraitsMsg)
  else do
  let gcol ← getItem adata.var "velocity_parameter_gamma"
  let gamma := idx.map (fun j => gcol.getD j 0)
  let velocity_offset :=
    if ¬ hasKey adata.var "velocity_offset" then (List.replicate n_genes (0 : ℚ))
    else idx.map (fun j => ((alookup adata.var "velocity_offset").getD []).getD j 0)
  let colorLen := match color_vec with
    | none => n_cells * n_genes
    | some cs => cs.length * n_genes
  if mode = "labelling" ∧ (["new", "total"].all (fun i => hasKey adata.layers i)) then do
    let nm ← getItem adata.layers "new"
    let tm ← getItem adata.layers "total"
    let cols := [("new", (nm.selectCols idx).flat), ("total", (tm.selectCols idx).flat),
                 ("gamma", npTile gamma n_cells), ("velocity_offset", npTile velocity_offset n_cells),
                 ("expression", Ev.flat), ("velocity", V_vec.flat)]
    let geneCol := (List.replicate n_cells genes').flatten
    if dfLenOk (n_cells * n_genes) cols geneCol colorLen then
      .ok (.portraitFig cols geneCol)
    else .error pdLenErr
  else if mode = "splicing" ∧ (["spliced", "unspliced"].all (fun i => hasKey adata.layers i)) then do
    -- lines 283: the guard checked spliced/unspliced but the reads are the
    -- X_unspliced/X_spliced layers (KeyError when those are absent)
    let um ← getItem adata.layers "X_unspliced"
    let sm ← getItem adata.layers "X_spliced"
    let cols := [("unspliced", (um.selectCols idx).flat), ("spliced", (sm.selectCols idx).flat),
                 ("gamma", npTile gamma n_cells), ("velocity_offset", npTile velocity_offset n_cells),
                 ("expression", Ev.flat), ("velocity", V_vec.flat)]
    let geneCol := (List.replicate n_cells genes').flatten
    if dfLenOk (n_cells * n_genes) cols geneCol colorLen then
      .ok (.portraitFig cols geneCol)
    else .error pdLenErr
  else if mode = "full" ∧ (["uu", "ul", "su", "sl"].all (fun i => hasKey adata.layers i)) then do
    let uu ← getItem adata.layers "X_uu"
    let ul ← getItem adata.layers "X_ul"
    let su ← getItem adata.layers "X_su"
    let sl ← getItem adata.layers "X_sl"
    let uuS := uu.selectCols idx
    let ulS := ul.selectCols idx
    let suS := su.selectCols idx
    let slS := sl.selectCols idx
    if hasKey adata.obsm "protein" then do
      if ¬ hasKey adata.var "velocity_parameter_eta" then
        .error (.exception gammaPortraitsMsg)
      else do
      let etaCol ← getItem adata.var "velocity_parameter_eta"
      let gamma_P := idx.map (fun j => etaCol.getD j 0)
      -- line 296: the default is [0] * n_cells (the source writes n_cells
      -- where every other branch uses n_genes)
      let velocity_offset_P :=
        if ¬ hasKey adata.var "velocity_offset_P" then (List.replicate n_cells (0 : ℚ))
        else idx.map (fun j => ((alookup adata.var "velocity_offset_P").getD []).getD j 0)
      -- line 303 compares the list [X_protein] against obsm.keys(), which is
      -- always false, so the protein slot is read
      let P ← getItem adata.obsm "protein"
      -- line 305 reads P_vec, which is unbound when obsm had no velocity_P
      let Pv ← (match P_vec with
        | none => .error (.nameError "name P_vec is not defined")
        | some m => .ok m : Except PyErr Mat)
      let cols := [("new", (ulS.add slS).flat), ("total", ((uuS.add ulS).add (slS.add suS)).flat),
                   ("S", (slS.add suS).flat), ("P", P.flat),
                   ("gamma", npTile gamma n_cells), ("velocity_offset", npTile velocity_offset n_cells),
                   ("gamma_P", npTile gamma_P n_cells), ("velocity_offset_P", npTile velocity_offset_P n_cells),
                   ("expression", Ev.flat), ("velocity", V_vec.flat), ("velocity_protein", Pv.flat)]
      let geneCol := (List.replicate n_cells genes').flatten
      if dfLenOk (n_cells * n_genes) cols geneCol colorLen then
        .ok (.portraitFig cols geneCol)
      else .error pdLenErr
    else do
      let cols := [("new", (ulS.add slS).flat), ("total", ((uuS.add ulS).add (slS.add suS)).flat),
                   ("gamma", npTile gamma n_cells), ("velocity_offset", npTile velocity_offset n_cells),
                   ("expression", Ev.flat), ("velocity", V_vec.flat)]
      let geneCol := (List.replicate n_cells genes').flatten
      if dfLenOk (n_cells * n_genes) cols geneCol colorLen then
        .ok (.portraitFig cols geneCol)
      else .error pdLenErr
  else
    .error (.exception corruptedDfMsg)

/-- State-passing form of phase_portraits: the source assigns to no
attribute of adata, so the object is returned unchanged. -/
def phase_portraits (adata : AnnData) (genes : List String) (x y : ℕ) (mode : String)
    (vkey ekey basis : String) (color : Option (List String)) :
    AnnData × Except PyErr Plot :=
  (adata, phase_portraits_res adata genes x y mode vkey ekey basis color)

/-- Colour handling of scatters (lines 194 to 202).  When color is given it
is replaced by its intersection with the obs keys (the CPython set iteration
order is unspecified; the model keeps list order); with a nonempty
intersection and a non-embedding type the first matching obs column becomes
color_vec, otherwise the branch that also builds full_color_vec runs and its
color[0] access raises IndexError on an empty intersection.  The result is
(rebound color list, n_genes, color_vec, full_color_vec). -/
def scattersColorStep (adata : AnnData) (color : Option (List String)) (type : String)
    (n_genes0 : ℕ) :
    Except PyErr (Option (List String) × ℕ × Option (List ℚ) × Option (List ℚ)) :=
  match color with
  | none => .ok (none, n_genes0, none, none)
  | some cs =>
    let cs' := cs.filter (fun c => hasKey adata.obs c)
    if cs'.length > 0 ∧ type ≠ "embedding" then
      match alookup adata.obs (cs'.headD "") with
      | some v => .ok (some cs', n_genes0, some v, none)
      | none => .error (.keyError (cs'.headD ""))
    else
      match cs' with
      | [] => .error (.indexError "list index out of range")
      | c0 :: _ =>
        match alookup adata.obs c0 with
        | some v =>
          let n_obs := adata.obs_index.length
          let fullv := ((List.range n_obs).map
            (fun i => cs'.map (fun c => ((alookup adata.obs c).getD []).getD i 0))).flatten
          .ok (some cs', cs'.length, some v, some fullv)
        | none => .error (.keyError c0)

/-- Tail of scatters from line 221 on (reached only through the vkey
dispatch): the E_vec read, the gamma parameters and the per-mode dataframe.
The mode names produced by the detection on lines 172 to 177 (labeling,
splicing, full) are compared against labelling on line 232, so the labeling
data mode falls through to the corrupted-adata exception.  Because the vkey
dispatch on lines 210 to 219 never reaches this tail (see scatters_res), the
code from here on is dead in every call; it is embedded for completeness. -/
def scattersTail (adata : AnnData) (genes' : List String) (idx : List ℕ) (mode : String)
    (E_vec : Option Mat) (V_vec : Mat) (color_vec : Option (List ℚ)) : Except PyErr Plot := do
  let n_cells := adata.obs_index.length
  let n_genes := genes'.length
  let Ev ← (match E_vec with
    | none => .error (.nameError "name E_vec is not defined")
    | some m => .ok m : Except PyErr Mat)
  if ¬ hasKey adata.var "gamma" then
    .error (.exception gammaScattersMsg)
  else do
  let gcol ← getItem adata.var "gamma"
  let gamma := idx.map (fun j => gcol.getD j 0)
  let velocity_offset :=
    if ¬ hasKey adata.var "gamma_b" then (List.replicate n_genes (0 : ℚ))
    else idx.map (fun j => ((alookup adata.var "gamma_b").getD []).getD j 0)
  let colorLen := match color_vec with
    | none => n_cells * n_genes
    | some cs => cs.length * n_genes
  if mode = "labelling" then do
    let nm ← getItem adata.layers "X_new"
    let tm ← getItem adata.layers "X_total"
    let cols := [("new", (nm.selectCols idx).flat), ("total", (tm.selectCols idx).flat),
                 ("gamma", npTile gamma n_cells), ("velocity_offset", npTile velocity_offset n_cells),
                 ("expression", Ev.flat), ("velocity", V_vec.flat)]
    let geneCol := (List.replicate n_cells genes').flatten
    if dfLenOk (n_cells * n_genes) cols geneCol colorLen then
      .ok (.scatterFig cols geneCol)
    else .error pdLenErr
  else if mode = "splicing" then do
    let um ← getItem adata.layers "X_unspliced"
    let sm ← getItem adata.layers "X_spliced"
    let cols := [("unspliced", (um.selectCols idx).flat), ("spliced", (sm.selectCols idx).flat),
                 ("gamma", npTile gamma n_cells), ("velocity_offset", npTile velocity_offset n_cells),
                 ("expression", Ev.flat), ("velocity", V_vec.flat)]
    let geneCol := (List.replicate n_cells genes').flatten
    if dfLenOk (n_cells * n_genes) cols geneCol colorLen then
      .ok (.scatterFig cols geneCol)
    else .error pdLenErr
  else if mode = "full" then do
    let uu ← getItem adata.layers "X_uu"
    let ul ← getItem adata.layers "X_ul"
    let su ← getItem adata.layers "X_su"
    let sl ← getItem adata.layers "X_sl"
    let uuS := uu.selectCols idx
    let ulS := ul.selectCols idx
    let suS := su.selectCols idx
    let slS := sl.selectCols idx
    if hasKey adata.obsm "protein" then do
      -- line 252 checks the eta column but line 253 reads the delta column
      -- through attribute access (AttributeError when delta is absent)
      if ¬ hasKey adata.var "eta" then
        .error (.exception gammaPortraitsMsg)
      else do
      let deltaCol ← (match alookup adata.var "delta" with
        | some c => .ok c
        | none => .error (.attributeError "DataFrame object has no attribute delta") :
        Except PyErr (List ℚ))
      let gamma_P := idx.map (fun j => deltaCol.getD j 0)
      let velocity_offset_P :=
        if ¬ hasKey adata.var "delta_b" then (List.replicate n_cells (0 : ℚ))
        else idx.map (fun j => ((alookup adata.var "delta_b").getD []).getD j 0)
      let P ← getItem adata.obsm "protein"
      let cols := [("new", (ulS.add slS).flat), ("total", ((uuS.add ulS).add (slS.add suS)).flat),
                   ("S", (slS.add suS).flat), ("P", P.flat),
                   ("gamma", npTile gamma n_cells), ("velocity_offset", npTile velocity_offset n_cells),
                   ("gamma_P", npTile gamma_P n_cells), ("velocity_offset_P", npTile velocity_offset_P n_cells),
                   ("expression", Ev.flat), ("velocity", V_vec.flat)]
      let geneCol := (List.replicate n_cells genes').flatten
      if dfLenOk (n_cells * n_genes) cols geneCol colorLen then
        .ok (.scatterFig cols geneCol)
      else .error pdLenErr
    else do
      let cols := [("new", (ulS.add slS).flat), ("total", ((uuS.add ulS).add (slS.add suS)).flat),
                   ("gamma", npTile gamma n_cells), ("velocity_offset", npTile velocity_offset n_cells),
                   ("expression", Ev.flat), ("velocity", V_vec.flat)]
      let geneCol := (List.replicate n_cells genes').flatten
      if dfLenOk (n_cells * n_genes) cols geneCol colorLen then
        .ok (.scatterFig cols geneCol)
      else .error pdLenErr
  else
    .error (.exception corruptedDfMsg)

/-- Embedding of scatters (scatters.py lines 94 to 470).  After the gene,
basis and data-mode validation, line 204 assigns
vkey = velocity_ + velocity_key only when the string velocity_ does not
occur in velocity_key; the embedding type path then dies on the unbound
full_color_vec or unassigned background (lines 207 and 317), and every other
type path reaches the dispatch on lines 210 to 219, which compares the
rewritten vkey against the bare strings U and S. -/
def scatters_res (adata : AnnData) (genes : List String) (x y : ℕ) (theme : Option String)
    (type : String) (velocity_key : String) (ekey : String) (basis : String)
    (color : Option (List String)) : Except PyErr Plot := do
  let genes' := matchedGenes adata genes
  let idx := matchedIdx adata genes
  if genes'.isEmpty then
    .error (.exception noGenesMsg)
  else if ¬ hasKey adata.obsm ("X_" ++ basis) then
    .error (.exception (basisMsg basis))
  else do
  let xb ← getItem adata.obsm ("X_" ++ basis)
  let _dim_1 ← xb.getCol x
  let _dim_2 ← xb.getCol y
  let mode ← (if ["X_new", "X_total"].all (fun i => hasKey adata.layers i) then
      .ok "labeling"
    else if ["X_spliced", "X_unspliced"].all (fun i => hasKey adata.layers i) then
      .ok "splicing"
    else if ["X_uu", "X_ul", "X_su", "X_sl"].all (fun i => hasKey adata.layers i) then
      .ok "full"
    else .error (.exception properModeMsg) : Except PyErr String)
  let E_vec ← compute_E_vec adata idx ekey
  let n_genes := genes'.length
  let cinfo ← scattersColorStep adata color type n_genes
  let color_vec := cinfo.2.2.1
  let full_color_vec := cinfo.2.2.2
  let vkey : Option String :=
    if ¬ strContains "velocity_" velocity_key then some ("velocity_" ++ velocity_key)
    else none
  let _theme := theme
  if type = "embedding" then
    match full_color_vec with
    | none => .error (.nameError "name full_color_vec is not defined")
    | some _fv =>
      -- the dataframe of lines 207-208 builds, but the theme dispatch on
      -- lines 281 to 315 assigns background in no branch when the type is
      -- embedding, so line 317 raises NameError
      .error (.nameError "name background is not defined")
  else do
    let vk ← (match vkey with
      | none => .error (.nameError "name vkey is not defined")
      | some v => .ok v : Except PyErr String)
    if vk = "U" then do
      let v ← getItem adata.layers "velocity_U"
      if hasKey adata.obsm "velocity_P" then
        -- line 213 accesses adata.layer, an attribute AnnData does not have
        .error (.attributeError "AnnData object has no attribute layer")
      else scattersTail adata genes' idx mode E_vec (v.selectCols idx) color_vec
    else if vk = "S" then do
      let v ← getItem adata.layers "velocity_S"
      let _P_vec ← (if hasKey adata.obsm "velocity_P" then
          (getItem adata.layers "velocity_P").map some
        else .ok none : Except PyErr (Option Mat))
      scattersTail adata genes' idx mode E_vec (v.selectCols idx) color_vec
    else .error (.exception (vkeyScattersMsg vk))

/-- State-passing form of scatters: the source assigns to no attribute of
adata, so the object is returned unchanged. -/
def scatters (adata : AnnData) (genes : List String) (x y : ℕ) (theme : Option String)
    (type : String) (velocity_key : String) (ekey : String) (basis : String)
    (color : Option (List String)) : AnnData × Except PyErr Plot :=
  (adata, scatters_res adata genes x y theme type velocity_key ekey basis color)

/-- Model of numpy np.cumsum on a 1-D array. -/
def np_cumsum : List ℚ → List ℚ
  | [] => []
  | x :: xs => x :: (np_cumsum xs).map (fun t => x + t)

/-- Model of numpy np.diff on a 1-D array. -/
def np_diff (xs : List ℚ) : List ℚ :=
  List.zipWith (fun a b => b - a) xs xs.tail

/-- Embedding of variance_explained (preprocess.py lines 107 to 134): the
cumulative variance curve from uns (KeyError when absent), the
second-difference threshold rule for the component count (np.diff of a
boolean array is elementwise xor) and the resulting line plot. -/
def variance_explained_res (adata : AnnData) (threshold : ℚ) (n_pcs : Option ℕ) :
    Except PyErr Plot := do
  let var_ ← getItem adata.uns "explained_variance_ratio_"
  let cs := np_cumsum var_
  let d := (np_diff cs).map (fun t => decide (t > threshold))
  let tmp := List.zipWith (fun a b => xor a b) d d.tail
  let n_comps := match n_pcs with
    | some n => n
    | none => match tmp.findIdx? (fun b => b) with
      | some i => i
      | none => 20
  .ok (.varianceLine cs n_comps)

/-- State-passing form of variance_explained: the source assigns to no
attribute of adata, so the object is returned unchanged. -/
def variance_explained (adata : AnnData) (threshold : ℚ) (n_pcs : Option ℕ) :
    AnnData × Except PyErr Plot :=
  (adata, variance_explained_res adata threshold n_pcs)

/-- Minimum of a numpy 1-D array (0 for the empty array, which numpy would
reject; no embedded theorem depends on the empty case). -/
def pd_min : List ℚ → ℚ
  | [] => 0
  | x :: xs => xs.foldl min x

/-- Modelled from the spec: topTable (dynamo.preprocessing.preprocess) is not
among the source files under verification.  The spec describes the repository
as plotting routines over an in-memory annotated data matrix with per-gene
parameters, performing data reshaping and column selection followed by
charting calls, so topTable is modelled as the pure read producing the
per-gene dispersion table (mean expression and empirical dispersion columns
of adata.var) without touching adata. -/
def topTable (adata : AnnData) (_layer : String) : List ℚ × List ℚ :=
  ((alookup adata.var "mean_expression").getD [],
   (alookup adata.var "dispersion_empirical").getD [])

/-- Embedding of feature_genes (preprocess.py lines 137 to 182): the
dispersion table, the use_for_dynamo marker read, the layer-key/character
intersection of line 159 (extend of the string X appends the single
character, and set.intersection iterates the characters of layer; the [0]
access raises IndexError when the intersection is empty), the dispFitInfo
read from uns (KeyError when absent) and the scatter overlay. -/
def feature_genes_res (adata : AnnData) (layer : String) : Except PyErr Plot := do
  let disp_table := topTable adata layer
  let _ordering_genes := alookup adata.var "use_for_dynamo"
  let layer_keys := keysOf adata.layers ++ ["X"]
  let inter := layer_keys.filter (fun k =>
    match k.toList with
    | [c] => layer.toList.contains c
    | _ => false)
  let layer2 ← (match inter with
    | [] => .error (.indexError "list index out of range")
    | l0 :: _ => .ok l0 : Except PyErr String)
  let _key := if layer2 = "raw" ∨ layer2 = "X" then "dispFitInfo" else layer2 ++ "_dispFitInfo"
  let _mu_linspace := np_linspace (pd_min disp_table.1) (pd_max disp_table.1) 1000
  let _fit ← getItem adata.uns "dispFitInfo"
  .ok (.featureFig disp_table.1 disp_table.2)

/-- State-passing form of feature_genes: the source (and the spec-modelled
topTable) assigns to no attribute of adata, so the object is returned
unchanged. -/
def feature_genes (adata : AnnData) (layer : String) : AnnData × Except PyErr Plot :=
  (adata, feature_genes_res adata layer)

/-- Concrete AnnData with labelling layers stored sparse (used to evaluate
the labelling branch on sparse storage). -/
def adLabSparse : AnnData :=
  ⟨.dense [[1]], ["c0"], [], ["g0"], [],
   [("new", .sparse 1 [[(0, 1)]]), ("total", .sparse 1 [[(0, 2)]])], [], []⟩

/-- Concrete AnnData with labelling layers stored dense (used to evaluate
the labelling branch on dense storage). -/
def adLabDense : AnnData :=
  ⟨.dense [[1]], ["c0"], [], ["g0"], [],
   [("new", .dense [[1]]), ("total", .dense [[2]])], [], []⟩

/-- Concrete AnnData with dense splicing layers over one cell and two genes. -/
def adSplicing : AnnData :=
  ⟨.dense [[1, 2]], ["c0"], [], ["g0", "g1"], [],
   [("unspliced", .dense [[1, 2]]), ("spliced", .dense [[3, 4]])], [], []⟩

/-- Concrete AnnData with the four full-mode layers, dense. -/
def adFullMode : AnnData :=
  ⟨.dense [[1]], ["c0"], [], ["g0"], [],
   [("uu", .dense [[1]]), ("ul", .dense [[1]]), ("su", .dense [[1]]), ("sl", .dense [[1]])],
   [], []⟩

/-- Concrete AnnData shaped for scatters: splicing X layers, a umap
embedding and one gene. -/
def adScatters : AnnData :=
  ⟨.dense [[1]], ["c0"], [], ["g0"], [],
   [("X_spliced", .dense [[1]]), ("X_unspliced", .dense [[2]])],
   [("X_umap", .dense [[0, 1]])], []⟩

/-- Concrete AnnData shaped for scatters in the labeling data mode. -/
def adScattersLab : AnnData :=
  ⟨.dense [[1]], ["c0"], [], ["g0"], [],
   [("X_new", .dense [[1]]), ("X_total", .dense [[2]])],
   [("X_umap", .dense [[0, 1]])], []⟩

/-- Concrete AnnData shaped for phase_portraits argument validation: one
matching gene and a umap embedding. -/
def adPhase : AnnData :=
  ⟨.dense [[1]], ["c0"], [], ["g0"], [],
   [("spliced", .dense [[1]]), ("unspliced", .dense [[2]])],
   [("X_umap", .dense [[0, 1]])], []⟩

/-- Concrete AnnData with no genes and no annotations. -/
def adEmpty : AnnData :=
  ⟨.dense [], [], [], [], [], [], [], []⟩

/-- The layer keys each mode of show_fraction requires, read off the branch
guards on lines 32, 48 and 76 of preprocess.py. -/
def requiredLayers : String → List String
  | "labelling" => ["new", "total"]
  | "splicing" => ["spliced", "unspliced"]
  | "full" => ["uu", "ul", "su", "sl"]
  | _ => []

theorem getItem_eq {α : Type} (kvs : List (String × α)) (k : String) (v : α)
    (h : alookup kvs k = some v) : getItem kvs k = .ok v := by
  simp [getItem, h]

theorem hasKey_of_alookup {α : Type} (kvs : List (String × α)) (k : String) (v : α)
    (h : alookup kvs k = some v) : hasKey kvs k = true := by
  simp [hasKey, h]

theorem bind_isErr {α β : Type} (e : Except PyErr α) (f : α → Except PyErr β)
    (h : ∀ a, ∃ err, f a = .error err) : ∃ err, e >>= f = .error err := by
  cases e with
  | error err => exact ⟨err, rfl⟩
  | ok a => simpa [Bind.bind, Except.bind] using h a

theorem sparseRowVal_nil (j : ℕ) : sparseRowVal [] j = 0 := rfl

theorem sparseRowVal_cons (e : ℕ × ℚ) (r : List (ℕ × ℚ)) (j : ℕ) :
    sparseRowVal (e :: r) j = (if e.1 = j then e.2 else 0) + sparseRowVal r j := by
  unfold sparseRowVal
  rw [List.filter_cons]
  by_cases h : e.1 = j
  · simp [h]
  · simp [h]

theorem sum_map_range_add (f g : ℕ → ℚ) (n : ℕ) :
    ((List.range n).map (fun j => f j + g j)).sum
      = ((List.range n).map f).sum + ((List.range n).map g).sum := by
  induction n with
  | zero => simp
  | succ n ih =>
    rw [List.range_succ]
    simp [ih]
    ring

theorem sum_map_range_ite_of_lt (c : ℕ) (v : ℚ) (n : ℕ) (h : c < n) :
    ((List.range n).map (fun j => if c = j then v else 0)).sum = v := by
  induction n with
  | zero => omega
  | succ n ih =>
    rw [List.range_succ]
    rcases Nat.lt_succ_iff_lt_or_eq.mp h with h2 | h2
    · have hne : c ≠ n := Nat.ne_of_lt h2
      simp [List.map_append, List.sum_append, ih h2, hne]
    · subst h2
      have hz : ((List.range c).map (fun j => if c = j then v else 0)).sum = 0 := by
        apply List.sum_eq_zero
        intro t ht
        rw [List.mem_map] at ht
        obtain ⟨j, hj, rfl⟩ := ht
        rw [List.mem_range] at hj
        have : c ≠ j := by omega
        simp [this]
      simp [List.map_append, List.sum_append, hz]

theorem sparse_row_sum_eq (n : ℕ) (r : List (ℕ × ℚ)) (h : ∀ e ∈ r, e.1 < n) :
    ((List.range n).map (fun j => sparseRowVal r j)).sum = (r.map Prod.snd).sum := by
  induction r with
  | nil => simp [sparseRowVal_nil]
  | cons e rest ih =>
    have hrw : (fun j => sparseRowVal (e :: rest) j)
        = fun j => (if e.1 = j then e.2 else 0) + sparseRowVal rest j := by
      funext j
      exact sparseRowVal_cons e rest j
    rw [hrw, sum_map_range_add,
      sum_map_range_ite_of_lt e.1 e.2 n (h e (List.mem_cons_self e rest)),
      ih (fun a ha => h a (List.mem_cons_of_mem e ha))]
    simp

theorem insertSorted_replicate (g : ℚ) (k : ℕ) :
    insertSorted g (List.replicate k g) = List.replicate (k + 1) g := by
  cases k with
  | zero => rfl
  | succ k => simp [List.replicate_succ, insertSorted, le_refl]

theorem pySort_replicate (g : ℚ) (n : ℕ) :
    pySort (List.replicate n g) = List.replicate n g := by
  induction n with
  | zero => rfl
  | succ n ih =>
    rw [List.replicate_succ]
    show insertSorted g (pySort (List.replicate n g)) = _
    rw [ih, insertSorted_replicate, List.replicate_succ]

theorem uniqSorted_replicate (g : ℚ) (n : ℕ) :
    uniqSorted (List.replicate (n + 1) g) = [g] := by
  induction n with
  | zero => rfl
  | succ n ih =>
    rw [List.replicate_succ, List.replicate_succ]
    show uniqSorted (g :: g :: List.replicate n g) = [g]
    rw [show uniqSorted (g :: g :: List.replicate n g)
        = if g = g then uniqSorted (g :: List.replicate n g)
          else g :: uniqSorted (g :: List.replicate n g) from rfl]
    rw [if_pos rfl, ← List.replicate_succ, ih]

theorem np_unique_replicate (g : ℚ) (n : ℕ) (h : 0 < n) :
    np_unique (List.replicate n g) = [g] := by
  obtain ⟨m, rfl⟩ := Nat.exists_eq_succ_of_ne_zero (Nat.pos_iff_ne_zero.mp h)
  rw [np_unique, pySort_replicate, uniqSorted_replicate]

theorem np_linspace_length (start stop : ℚ) (num : ℕ) :
    (np_linspace start stop num).length = num := by
  unfold np_linspace
  rw [List.length_map, List.length_range]

theorem np_linspace_getD (start stop : ℚ) (num i : ℕ) (h : i < num) :
    (np_linspace start stop num).getD i 0
      = start + (stop - start) * (i : ℚ) / ((num : ℚ) - 1) := by
  unfold np_linspace
  have h2 : i < ((List.range num).map
      (fun (j : ℕ) => start + (stop - start) * (j : ℚ) / ((num : ℚ) - 1))).length := by
    rw [List.length_map, List.length_range]
    exact h
  rw [List.getD_eq_getElem?_getD, List.getElem?_eq_getElem h2]
  simp

theorem np_bcast_single (f : ℚ → ℚ → ℚ) (a : List ℚ) (c : ℚ) (h : a.length ≠ 1) :
    np_bcast f a [c] = .ok (a.map (fun x => f x c)) := by
  unfold np_bcast
  rw [if_neg (by simpa using h), if_neg h]
  simp

theorem vdiv_pair_sum_getD (a b : List ℚ) (i : ℕ)
    (h : i < (vdiv a (vadd a b)).length)
    (hne : a.getD i 0 + b.getD i 0 ≠ 0) :
    (vdiv a (vadd a b)).getD i 0 + (vdiv b (vadd a b)).getD i 0 = 1 := by
  induction a generalizing b i with
  | nil => simp [vdiv, vadd] at h
  | cons x xs ih =>
    cases b with
    | nil => simp [vdiv, vadd] at h
    | cons y ys =>
      cases i with
      | zero =>
        simp only [vdiv, vadd, List.zipWith_cons_cons, List.getD_cons_zero] at hne ⊢
        rw [div_add_div_same, div_self hne]
      | succ i =>
        simp only [vdiv, vadd, List.zipWith_cons_cons, List.getD_cons_succ,
          List.length_cons] at h hne ⊢
        refine ih ys i ?_ hne
        simp only [vdiv, vadd]
        omega

theorem vdiv_triple_sum_getD (a b c : List ℚ) (i : ℕ)
    (h : i < (vdiv a (vadd (vadd a b) c)).length)
    (hne : a.getD i 0 + b.getD i 0 + c.getD i 0 ≠ 0) :
    (vdiv a (vadd (vadd a b) c)).getD i 0 + (vdiv b (vadd (vadd a b) c)).getD i 0
      + (vdiv c (vadd (vadd a b) c)).getD i 0 = 1 := by
  induction a generalizing b c i with
  | nil => simp [vdiv, vadd] at h
  | cons x xs ih =>
    cases b with
    | nil => simp [vdiv, vadd] at h
    | cons y ys =>
      cases c with
      | nil => simp [vdiv, vadd] at h
      | cons z zs =>
        cases i with
        | zero =>
          simp only [vdiv, vadd, List.zipWith_cons_cons, List.getD_cons_zero] at hne ⊢
          rw [div_add_div_same, div_add_div_same, div_self hne]
        | succ i =>
          simp only [vdiv, vadd, List.zipWith_cons_cons, List.getD_cons_succ,
            List.length_cons] at h hne ⊢
          refine ih ys zs i ?_ hne
          simp only [vdiv, vadd]
          omega

theorem velocity_prepend_ne (k s : String) (hs : s.length < 9) :
    "velocity_" ++ k ≠ s := by
  intro h
  have hl := congrArg String.length h
  rw [String.length_append] at hl
  have h9 : ("velocity_" : String).length = 9 := rfl
  omega

theorem land_shiftLeft_shiftRight (x m k : ℕ) :
    (x &&& (m <<< k)) >>> k = (x >>> k) &&& m := by
  apply Nat.eq_of_testBit_eq
  intro i
  simp [Nat.testBit_shiftRight, Nat.testBit_land, Nat.testBit_shiftLeft,
    Nat.le_add_right, Nat.add_sub_cancel_left]

/-- C10: for every uint32 pixel value x, the channel extractors satisfy
_red x * 65536 + _green x * 256 + _blue x = x &&& 0xFFFFFF, and each channel
value fits in a uint8. -/
theorem channel_extractors_recombine (x : ℕ) (_h : x < 2 ^ 32) :
    _red x * 65536 + _green x * 256 + _blue x = x &&& 0xFFFFFF
      ∧ _red x ≤ 255 ∧ _green x ≤ 255 ∧ _blue x ≤ 255 := by
  have h255 : (255 : ℕ) = 2 ^ 8 - 1 := by decide
  have hr : _red x = x / 2 ^ 16 % 2 ^ 8 := by
    rw [_red, show (0xFF0000 : ℕ) = 255 <<< 16 from by decide,
      land_shiftLeft_shiftRight, Nat.shiftRight_eq_div_pow, h255,
      Nat.and_pow_two_sub_one_eq_mod]
  have hg : _green x = x / 2 ^ 8 % 2 ^ 8 := by
    rw [_green, show (0x00FF00 : ℕ) = 255 <<< 8 from by decide,
      land_shiftLeft_shiftRight, Nat.shiftRight_eq_div_pow, h255,
      Nat.and_pow_two_sub_one_eq_mod]
  have hb : _blue x = x % 2 ^ 8 := by
    rw [_blue, show (0x0000FF : ℕ) = 2 ^ 8 - 1 from by decide,
      Nat.and_pow_two_sub_one_eq_mod]
  have hm : x &&& 0xFFFFFF = x % 2 ^ 24 := by
    rw [show (0xFFFFFF : ℕ) = 2 ^ 24 - 1 from by decide,
      Nat.and_pow_two_sub_one_eq_mod]
  rw [hr, hg, hb, hm]
  refine ⟨by omega, by omega, by omega, by omega⟩

/-- Witness for C10 at the pixel value 0xC0FFEE12. -/
theorem channel_extractors_recombine_witness :
    _red 0xC0FFEE12 * 65536 + _green 0xC0FFEE12 * 256 + _blue 0xC0FFEE12
        = 0xC0FFEE12 &&& 0xFFFFFF
      ∧ _red 0xC0FFEE12 ≤ 255 ∧ _green 0xC0FFEE12 ≤ 255 ∧ _blue 0xC0FFEE12 ≤ 255 :=
  channel_extractors_recombine 0xC0FFEE12 (by norm_num)

/-- C6: every entry of the normalised velocity colour vector
(v + limit) / (2 * limit) clipped to [0, 1], with limit the maximum absolute
value of the 1st and 99th percentiles, lies in the closed unit interval. -/
theorem normalize_velocity_in_unit_interval (v : List ℚ) (t : ℚ)
    (ht : t ∈ normalize_velocity v) : 0 ≤ t ∧ t ≤ 1 := by
  unfold normalize_velocity at ht
  rw [List.mem_map] at ht
  obtain ⟨s, _, rfl⟩ := ht
  unfold np_clip
  exact ⟨le_min (le_max_right _ _) zero_le_one, min_le_right _ _⟩

/-- Witness for C6 on the singleton vector [0]. -/
theorem normalize_velocity_in_unit_interval_witness :
    np_clip ((0 + velocity_limit [0]) / (2 * velocity_limit [0])) 0 1
        ∈ normalize_velocity [0]
      ∧ (0 ≤ np_clip ((0 + velocity_limit [0]) / (2 * velocity_limit [0])) 0 1
        ∧ np_clip ((0 + velocity_limit [0]) / (2 * velocity_limit [0])) 0 1 ≤ 1) := by
  have hm : np_clip ((0 + velocity_limit [0]) / (2 * velocity_limit [0])) 0 1
      ∈ normalize_velocity [0] := by
    unfold normalize_velocity
    exact List.mem_map_of_mem _ (List.mem_map_of_mem _ (List.mem_singleton.mpr rfl))
  exact ⟨hm, normalize_velocity_in_unit_interval [0] _ hm⟩

/-- C7: on a sparse matrix whose stored column indices are within bounds, the
sparse branch mat.sum(1).A1 and the dense branch np.sum(mat, 1) applied to
the dense matrix with the same values give the same per-cell sums, so the
plotted fractions do not depend on the storage. -/
theorem sparse_dense_row_sums_agree (n : ℕ) (rows : List (List (ℕ × ℚ)))
    (h : ∀ r ∈ rows, ∀ e ∈ r, e.1 < n) :
    sparse_sum1_A1 rows = np_sum_axis1 (sparse_to_dense n rows) := by
  unfold sparse_sum1_A1 np_sum_axis1 sparse_to_dense
  rw [List.map_map]
  apply List.map_congr_left
  intro r hr
  exact (sparse_row_sum_eq n r (h r hr)).symm

/-- Witness for C7 on a 2-by-3 sparse matrix. -/
theorem sparse_dense_row_sums_agree_witness :
    sparse_sum1_A1 [[(0, 3), (2, 5)], [(1, 2)]]
      = np_sum_axis1 (sparse_to_dense 3 [[(0, 3), (2, 5)], [(1, 2)]]) :=
  sparse_dense_row_sums_agree 3 [[(0, 3), (2, 5)], [(1, 2)]] (by decide)

/-- C8: with the constant per-gene gamma and velocity_offset columns of the
sub-dataframe (n cells of one gene), the overlaid line of the phase portrait
panel is exactly the linear fit gamma * x + offset evaluated on the 50-point
linspace whose first point is 0 and whose last point is the maximum of the
panel x-axis data column. -/
theorem phase_fit_line_is_linear_fit (n : ℕ) (gamma offset : ℚ) (xcol : List ℚ)
    (h : 0 < n) :
    phase_fit_line (List.replicate n gamma) (List.replicate n offset) xcol
        = .ok (spec_fit_line gamma offset (pd_max xcol))
      ∧ (np_linspace 0 (pd_max xcol) 50).getD 0 0 = 0
      ∧ (np_linspace 0 (pd_max xcol) 50).getD 49 0 = pd_max xcol := by
  refine ⟨?_, ?_, ?_⟩
  · have h1 : np_bcast (fun p q => p * q) (np_linspace 0 (pd_max xcol) 50)
        (np_unique (List.replicate n gamma))
        = .ok ((np_linspace 0 (pd_max xcol) 50).map (fun x => x * gamma)) := by
      rw [np_unique_replicate gamma n h]
      exact np_bcast_single _ _ _ (by rw [np_linspace_length]; omega)
    have h2 : np_bcast (fun p q => p + q)
        ((np_linspace 0 (pd_max xcol) 50).map (fun x => x * gamma))
        (np_unique (List.replicate n offset))
        = .ok (((np_linspace 0 (pd_max xcol) 50).map (fun x => x * gamma)).map
            (fun x => x + offset)) := by
      rw [np_unique_replicate offset n h]
      exact np_bcast_single _ _ _ (by rw [List.length_map, np_linspace_length]; omega)
    calc phase_fit_line (List.replicate n gamma) (List.replicate n offset) xcol
        = np_bcast (fun p q => p * q) (np_linspace 0 (pd_max xcol) 50)
            (np_unique (List.replicate n gamma)) >>= (fun a => np_bcast (fun p q => p + q) a
            (np_unique (List.replicate n offset))) := rfl
      _ = np_bcast (fun p q => p + q)
            ((np_linspace 0 (pd_max xcol) 50).map (fun x => x * gamma))
            (np_unique (List.replicate n offset)) := by rw [h1]; rfl
      _ = .ok (((np_linspace 0 (pd_max xcol) 50).map (fun x => x * gamma)).map
            (fun x => x + offset)) := h2
      _ = .ok (spec_fit_line gamma offset (pd_max xcol)) := by
            unfold spec_fit_line
            rw [List.map_map]
            refine congrArg Except.ok ?_
            apply List.map_congr_left
            intro t _
            simp only [Function.comp_apply]
            ring
  · rw [np_linspace_getD 0 (pd_max xcol) 50 0 (by omega)]
    norm_num
  · rw [np_linspace_getD 0 (pd_max xcol) 50 49 (by omega)]
    norm_num

/-- Witness for C8 with gamma 2, offset 3 over one cell and x column [5]. -/
theorem phase_fit_line_is_linear_fit_witness :
    phase_fit_line (List.replicate 1 2) (List.replicate 1 3) [5]
        = .ok (spec_fit_line 2 3 (pd_max [5]))
      ∧ (np_linspace 0 (pd_max [5]) 50).getD 0 0 = 0
      ∧ (np_linspace 0 (pd_max [5]) 50).getD 49 0 = pd_max [5] :=
  phase_fit_line_is_linear_fit 1 2 3 [5] (by norm_num)

/-- C9: every plotting function only reads the AnnData object: the
state-passing embeddings of show_fraction, variance_explained,
feature_genes, phase_portraits and scatters return it unchanged on every
input, whether the outcome is a plot or an exception. -/
theorem plotting_functions_read_only :
    (∀ adata mode group, (show_fraction adata mode group).1 = adata)
    ∧ (∀ adata threshold n_pcs, (variance_explained adata threshold n_pcs).1 = adata)
    ∧ (∀ adata layer, (feature_genes adata layer).1 = adata)
    ∧ (∀ adata genes x y mode vkey ekey basis color,
        (phase_portraits adata genes x y mode vkey ekey basis color).1 = adata)
    ∧ (∀ adata genes x y theme type velocity_key ekey basis color,
        (scatters adata genes x y theme type velocity_key ekey basis color).1 = adata) :=
  ⟨fun _ _ _ => rfl, fun _ _ _ => rfl, fun _ _ => rfl,
   fun _ _ _ _ _ _ _ _ _ => rfl, fun _ _ _ _ _ _ _ _ _ _ => rfl⟩

theorem labellingBranch_eq (adata : AnnData) (nm tm : Mat)
    (hn : alookup adata.layers "new" = some nm)
    (ht : alookup adata.layers "total" = some tm) :
    labellingBranch adata
      = .error (if tm.issparse then PyErr.valueError unpack2Msg
          else PyErr.attributeError "ndarray object has no attribute A1") := by
  unfold labellingBranch
  rw [getItem_eq _ _ _ hn, getItem_eq _ _ _ ht]
  cases nm <;> cases tm <;> rfl

theorem fullBranch_err (adata : AnnData) : ∃ err, fullBranch adata = .error err := by
  unfold fullBranch
  apply bind_isErr; intro uu
  apply bind_isErr; intro ul
  apply bind_isErr; intro su
  apply bind_isErr; intro sl
  apply bind_isErr; intro _e4
  apply bind_isErr; intro _e5
  apply bind_isErr; intro _e6
  apply bind_isErr; intro _e7
  exact ⟨_, rfl⟩

theorem show_fraction_res_labelling (adata : AnnData) (group : Option String)
    (hall : (["new", "total"].all (fun i => hasKey adata.layers i)) = true) :
    show_fraction_res adata "labelling" group = labellingBranch adata := by
  unfold show_fraction_res
  rw [if_neg (by simp), if_pos ⟨rfl, by simp [hall]⟩]

theorem show_fraction_res_splicing (adata : AnnData) (group : Option String)
    (hall : (["spliced", "unspliced"].all (fun i => hasKey adata.layers i)) = true) :
    show_fraction_res adata "splicing" group = splicingBranch adata group := by
  unfold show_fraction_res
  rw [if_neg (by simp), if_neg (by simp), if_pos ⟨rfl, by simp [hall]⟩]

theorem show_fraction_res_full (adata : AnnData) (group : Option String)
    (hall : (["uu", "ul", "su", "sl"].all (fun i => hasKey adata.layers i)) = true) :
    show_fraction_res adata "full" group = fullBranch adata := by
  unfold show_fraction_res
  rw [if_neg (by simp), if_neg (by simp), if_neg (by simp), if_pos ⟨rfl, by simp [hall]⟩]

theorem splicingBranch_eq_noamb (adata : AnnData) (group : Option String) (um sm : Mat)
    (hu : alookup adata.layers "unspliced" = some um)
    (hs : alookup adata.layers "spliced" = some sm)
    (hna : hasKey adata.layers "ambiguous" = false)
    (hst : um.issparse = sm.issparse) :
    splicingBranch adata group
      = .ok (.violinData
          [("unspliced", vdiv um.rowSums (vadd um.rowSums sm.rowSums)),
           ("spliced", vdiv sm.rowSums (vadd um.rowSums sm.rowSums))]
          (match group with
            | none => false
            | some g => hasKey adata.obs g)) := by
  unfold splicingBranch
  rw [getItem_eq _ _ _ hu, getItem_eq _ _ _ hs]
  cases um with
  | dense ru =>
    cases sm with
    | dense rs => simp [hna, getItem_eq _ _ _ hu, Mat.issparse, Mat.rowSums, Bind.bind, Except.bind]
    | sparse ks rs => simp [Mat.issparse] at hst
  | sparse ku ru =>
    cases sm with
    | dense rs => simp [Mat.issparse] at hst
    | sparse ks rs =>
      simp [hna, getItem_eq _ _ _ hu, Mat.issparse, Mat.rowSums, Mat.sum1A1,
        Bind.bind, Except.bind]

theorem splicingBranch_eq_amb (adata : AnnData) (group : Option String) (um sm am : Mat)
    (hu : alookup adata.layers "unspliced" = some um)
    (hs : alookup adata.layers "spliced" = some sm)
    (ham : alookup adata.layers "ambiguous" = some am)
    (hst : um.issparse = sm.issparse)
    (hsa : am.issparse = um.issparse) :
    splicingBranch adata group
      = .ok (.violinData
          [("unspliced", vdiv um.rowSums (vadd (vadd um.rowSums sm.rowSums) am.rowSums)),
           ("spliced", vdiv sm.rowSums (vadd (vadd um.rowSums sm.rowSums) am.rowSums)),
           ("ambiguous", vdiv am.rowSums (vadd (vadd um.rowSums sm.rowSums) am.rowSums))]
          (match group with
            | none => false
            | some g => hasKey adata.obs g)) := by
  have hkey : hasKey adata.layers "ambiguous" = true := hasKey_of_alookup _ _ _ ham
  unfold splicingBranch
  rw [getItem_eq _ _ _ hu, getItem_eq _ _ _ hs, getItem_eq _ _ _ ham]
  cases um with
  | dense ru =>
    cases sm with
    | dense rs =>
      cases am with
      | dense ra =>
        simp [hkey, getItem_eq _ _ _ ham, Mat.issparse, Mat.rowSums, Bind.bind, Except.bind]
      | sparse ka ra => simp [Mat.issparse] at hsa
    | sparse ks rs => simp [Mat.issparse] at hst
  | sparse ku ru =>
    cases sm with
    | dense rs => simp [Mat.issparse] at hst
    | sparse ks rs =>
      cases am with
      | dense ra => simp [Mat.issparse] at hsa
      | sparse ka ra =>
        simp [hkey, getItem_eq _ _ _ ham, Mat.issparse, Mat.rowSums, Mat.sum1A1,
          Bind.bind, Except.bind]

/-- C1 (corrected): in splicing mode the per-cell fractions sum to 1 for
every cell with a nonzero total (with and without the ambiguous layer, under
consistent layer storage), while in labelling and in full mode show_fraction
raises an exception from the malformed tuple unpacking before computing any
fraction, so no fractions exist there. -/
theorem show_fraction_fraction_sums :
    (∀ adata group nm tm, alookup adata.layers "new" = some nm →
      alookup adata.layers "total" = some tm →
      ∃ err, show_fraction_res adata "labelling" group = .error err)
    ∧ (∀ adata group,
        (["uu", "ul", "su", "sl"].all (fun i => hasKey adata.layers i)) = true →
        ∃ err, show_fraction_res adata "full" group = .error err)
    ∧ (∀ adata group um sm, alookup adata.layers "unspliced" = some um →
        alookup adata.layers "spliced" = some sm →
        hasKey adata.layers "ambiguous" = false →
        um.issparse = sm.issparse →
        ∀ i, i < (vdiv um.rowSums (vadd um.rowSums sm.rowSums)).length →
        um.rowSums.getD i 0 + sm.rowSums.getD i 0 ≠ 0 →
        ∃ grouped, show_fraction_res adata "splicing" group
            = .ok (.violinData
                [("unspliced", vdiv um.rowSums (vadd um.rowSums sm.rowSums)),
                 ("spliced", vdiv sm.rowSums (vadd um.rowSums sm.rowSums))] grouped)
          ∧ (vdiv um.rowSums (vadd um.rowSums sm.rowSums)).getD i 0
            + (vdiv sm.rowSums (vadd um.rowSums sm.rowSums)).getD i 0 = 1)
    ∧ (∀ adata group um sm am, alookup adata.layers "unspliced" = some um →
        alookup adata.layers "spliced" = some sm →
        alookup adata.layers "ambiguous" = some am →
        um.issparse = sm.issparse → am.issparse = um.issparse →
        ∀ i, i < (vdiv um.rowSums (vadd (vadd um.rowSums sm.rowSums) am.rowSums)).length →
        um.rowSums.getD i 0 + sm.rowSums.getD i 0 + am.rowSums.getD i 0 ≠ 0 →
        ∃ grouped, show_fraction_res adata "splicing" group
            = .ok (.violinData
                [("unspliced", vdiv um.rowSums (vadd (vadd um.rowSums sm.rowSums) am.rowSums)),
                 ("spliced", vdiv sm.rowSums (vadd (vadd um.rowSums sm.rowSums) am.rowSums)),
                 ("ambiguous", vdiv am.rowSums (vadd (vadd um.rowSums sm.rowSums) am.rowSums))]
                grouped)
          ∧ (vdiv um.rowSums (vadd (vadd um.rowSums sm.rowSums) am.rowSums)).getD i 0
            + (vdiv sm.rowSums (vadd (vadd um.rowSums sm.rowSums) am.rowSums)).getD i 0
            + (vdiv am.rowSums (vadd (vadd um.rowSums sm.rowSums) am.rowSums)).getD i 0
            = 1) := by
  refine ⟨?_, ?_, ?_, ?_⟩
  · intro adata group nm tm hn ht
    rw [show_fraction_res_labelling adata group
      (by simp [List.all_cons, hasKey, hn, ht])]
    rw [labellingBranch_eq adata nm tm hn ht]
    exact ⟨_, rfl⟩
  · intro adata group hall
    rw [show_fraction_res_full adata group hall]
    exact fullBranch_err adata
  · intro adata group um sm hu hs hna hst i hi hne
    refine ⟨(match group with | none => false | some g => hasKey adata.obs g), ?_, ?_⟩
    · rw [show_fraction_res_splicing adata group
        (by simp [List.all_cons, hasKey, hu, hs])]
      exact splicingBranch_eq_noamb adata group um sm hu hs hna hst
    · exact vdiv_pair_sum_getD um.rowSums sm.rowSums i hi hne
  · intro adata group um sm am hu hs ham hst hsa i hi hne
    refine ⟨(match group with | none => false | some g => hasKey adata.obs g), ?_, ?_⟩
    · rw [show_fraction_res_splicing adata group
        (by simp [List.all_cons, hasKey, hu, hs])]
      exact splicingBranch_eq_amb adata group um sm am hu hs ham hst hsa
    · exact vdiv_triple_sum_getD um.rowSums sm.rowSums am.rowSums i hi hne

/-- Witness for C1: labelling and full mode raise on concrete data, and the
splicing fractions of the concrete one-cell, two-gene data sum to 1. -/
theorem show_fraction_fraction_sums_witness :
    (∃ err, show_fraction_res adLabSparse "labelling" none = .error err)
    ∧ (∃ err, show_fraction_res adFullMode "full" none = .error err)
    ∧ (∃ grouped, show_fraction_res adSplicing "splicing" none
        = .ok (.violinData
            [("unspliced", vdiv (Mat.rowSums (.dense [[1, 2]]))
                (vadd (Mat.rowSums (.dense [[1, 2]])) (Mat.rowSums (.dense [[3, 4]])))),
             ("spliced", vdiv (Mat.rowSums (.dense [[3, 4]]))
                (vadd (Mat.rowSums (.dense [[1, 2]])) (Mat.rowSums (.dense [[3, 4]]))))]
            grouped)
      ∧ (vdiv (Mat.rowSums (.dense [[1, 2]]))
            (vadd (Mat.rowSums (.dense [[1, 2]])) (Mat.rowSums (.dense [[3, 4]])))).getD 0 0
        + (vdiv (Mat.rowSums (.dense [[3, 4]]))
            (vadd (Mat.rowSums (.dense [[1, 2]])) (Mat.rowSums (.dense [[3, 4]])))).getD 0 0
        = 1) := by
  refine ⟨?_, ?_, ?_⟩
  · exact show_fraction_fraction_sums.1 adLabSparse none _ _ rfl rfl
  · exact show_fraction_fraction_sums.2.1 adFullMode none rfl
  · exact show_fraction_fraction_sums.2.2.1 adSplicing none (.dense [[1, 2]]) (.dense [[3, 4]])
      rfl rfl rfl rfl 0 (by simp [vdiv, vadd, Mat.rowSums])
      (by norm_num [Mat.rowSums, List.sum_cons, List.sum_nil])

/-- Counterexample for C1 as stated: on labelling data the call raises the
unpacking ValueError, so no per-cell fraction is computed, let alone sums to
1. -/
theorem show_fraction_fraction_sums_cx :
    show_fraction_res adLabSparse "labelling" none = .error (.valueError unpack2Msg) := by
  rw [show_fraction_res_labelling adLabSparse none rfl]
  rw [labellingBranch_eq adLabSparse (.sparse 1 [[(0, 1)]]) (.sparse 1 [[(0, 2)]]) rfl rfl]
  rfl

/-- C3 (corrected): show_fraction in labelling mode with the new and total
layers present always raises before computing any fraction or producing a
plot, because the right-hand side of the assignment on lines 35-36 is a
3-element tuple unpacked into two names; the exception is the unpacking
ValueError when the total layer is sparse, and the AttributeError of the
third tuple element total_mat.sum(1).A1 when the total layer is dense. -/
theorem labelling_mode_always_raises (adata : AnnData) (group : Option String)
    (nm tm : Mat)
    (hn : alookup adata.layers "new" = some nm)
    (ht : alookup adata.layers "total" = some tm) :
    show_fraction_res adata "labelling" group
      = .error (if tm.issparse then PyErr.valueError unpack2Msg
          else PyErr.attributeError "ndarray object has no attribute A1") := by
  rw [show_fraction_res_labelling adata group (by simp [hasKey, hn, ht])]
  exact labellingBranch_eq adata nm tm hn ht

/-- Witness for C3 on sparse labelling layers: the ValueError is raised. -/
theorem labelling_mode_always_raises_witness :
    show_fraction_res adLabSparse "labelling" none = .error (.valueError unpack2Msg) :=
  labelling_mode_always_raises adLabSparse none (.sparse 1 [[(0, 1)]])
    (.sparse 1 [[(0, 2)]]) rfl rfl

/-- Counterexample for C3 as stated: with dense labelling layers the raised
exception is an AttributeError, not a ValueError. -/
theorem labelling_mode_valueerror_cx :
    show_fraction_res adLabDense "labelling" none
        = .error (.attributeError "ndarray object has no attribute A1")
      ∧ show_fraction_res adLabDense "labelling" none
        ≠ .error (.valueError unpack2Msg) := by
  have h : show_fraction_res adLabDense "labelling" none
      = .error (.attributeError "ndarray object has no attribute A1") := by
    rw [show_fraction_res_labelling adLabDense none rfl]
    rw [labellingBranch_eq adLabDense (.dense [[1]]) (.dense [[2]]) rfl rfl]
    rfl
  refine ⟨h, ?_⟩
  rw [h]
  simp

/-- C5: when the mode is one of labelling, splicing or full but the layer
keys that mode requires are not all present, show_fraction raises the
corrupted-adata exception instead of producing a plot. -/
theorem missing_layers_raise_corrupted (adata : AnnData) (mode : String)
    (group : Option String)
    (hmode : mode = "labelling" ∨ mode = "splicing" ∨ mode = "full")
    (hmiss : ((requiredLayers mode).all (fun i => hasKey adata.layers i)) = false) :
    show_fraction_res adata mode group = .error (.exception corruptedMsg) := by
  rcases hmode with h | h | h <;> subst h <;>
    simp only [requiredLayers] at hmiss <;>
    unfold show_fraction_res <;>
    rw [if_neg (by simp), if_neg (by simp [hmiss]), if_neg (by simp [hmiss]),
      if_neg (by simp [hmiss])]

/-- Witness for C5: labelling mode on an AnnData without layers. -/
theorem missing_layers_raise_corrupted_witness :
    show_fraction_res adEmpty "labelling" none = .error (.exception corruptedMsg) :=
  missing_layers_raise_corrupted adEmpty "labelling" none (Or.inl rfl) rfl

/-- C4 (corrected): an invalid mode makes show_fraction raise the
mode-validation exception unconditionally as its first check, and makes
phase_portraits raise it before reading any layer provided the gene and
basis checks that precede it pass; both statements hold for every layers
attribute, which expresses that no layer is read first. -/
theorem invalid_mode_raises_before_layers :
    (∀ adata mode group, ¬(mode = "labelling" ∨ mode = "splicing" ∨ mode = "full") →
      show_fraction_res adata mode group = .error (.exception modeErrMsg))
    ∧ (∀ adata genes x y mode vkey ekey basis color xb d1 d2,
        ¬(mode = "labelling" ∨ mode = "splicing" ∨ mode = "full") →
        (matchedGenes adata genes).isEmpty = false →
        alookup adata.obsm ("X_" ++ basis) = some xb →
        Mat.getCol xb x = .ok d1 → Mat.getCol xb y = .ok d2 →
        phase_portraits_res adata genes x y mode vkey ekey basis color
          = .error (.exception modeErrMsg)) := by
  constructor
  · intro adata mode group hm
    unfold show_fraction_res
    rw [if_pos hm]
  · intro adata genes x y mode vkey ekey basis color xb d1 d2 hm hg hb hx hy
    simp [phase_portraits_res, hg, hasKey, hb, getItem, hx, hy, hm,
      Bind.bind, Except.bind]

/-- Witness for C4 with the invalid mode neither. -/
theorem invalid_mode_raises_before_layers_witness :
    show_fraction_res adEmpty "neither" none = .error (.exception modeErrMsg)
    ∧ phase_portraits_res adPhase ["g0"] 0 1 "neither" "S" "X" "umap" none
      = .error (.exception modeErrMsg) := by
  constructor
  · exact invalid_mode_raises_before_layers.1 adEmpty "neither" none (by simp)
  · exact invalid_mode_raises_before_layers.2 adPhase ["g0"] 0 1 "neither" "S" "X" "umap"
      none (.dense [[0, 1]]) [0] [1] (by simp) rfl rfl rfl rfl

/-- Counterexample for C4 as stated: with an invalid mode but an empty gene
intersection, phase_portraits raises the missing-genes exception instead of
the mode-validation exception. -/
theorem invalid_mode_raises_cx :
    phase_portraits_res adEmpty [] 0 1 "neither" "S" "X" "umap" none
      = .error (.exception noGenesMsg)
    ∧ phase_portraits_res adEmpty [] 0 1 "neither" "S" "X" "umap" none
      ≠ .error (.exception modeErrMsg) := by
  have h : phase_portraits_res adEmpty [] 0 1 "neither" "S" "X" "umap" none
      = .error (.exception noGenesMsg) := rfl
  refine ⟨h, ?_⟩
  rw [h]
  simp [noGenesMsg, modeErrMsg]

/-- C2 (corrected): for a non-embedding type and any velocity_key in which
the substring velocity_ does not occur (which includes the documented values
S and U), scatters raises the no-vkey exception with the rewritten key
velocity_ + velocity_key, because the rewritten vkey is compared against the
bare strings U and S; when velocity_ does occur in velocity_key the name
vkey is never assigned and a NameError is raised instead. -/
theorem scatters_nonembedding_vkey_raises (adata : AnnData) (genes : List String)
    (x y : ℕ) (theme : Option String) (type velocity_key ekey basis : String)
    (xb : Mat) (d1 d2 : List ℚ) (ev : Option Mat)
    (hg : (matchedGenes adata genes).isEmpty = false)
    (hb : alookup adata.obsm ("X_" ++ basis) = some xb)
    (hx : Mat.getCol xb x = .ok d1)
    (hy : Mat.getCol xb y = .ok d2)
    (hm : (["X_new", "X_total"].all (fun i => hasKey adata.layers i)) = true)
    (he : compute_E_vec adata (matchedIdx adata genes) ekey = .ok ev)
    (ht : type ≠ "embedding")
    (hv : strContains "velocity_" velocity_key = false) :
    scatters_res adata genes x y theme type velocity_key ekey basis none
      = .error (.exception (vkeyScattersMsg ("velocity_" ++ velocity_key))) := by
  have hU : ("velocity_" ++ velocity_key) ≠ "U" := velocity_prepend_ne _ _ (by decide)
  have hS : ("velocity_" ++ velocity_key) ≠ "S" := velocity_prepend_ne _ _ (by decide)
  have hm2 : (alookup adata.layers "X_new").isSome = true
      ∧ (alookup adata.layers "X_total").isSome = true := by
    simpa [hasKey] using hm
  simp [scatters_res, hg, hasKey, hb, getItem, hx, hy, hm2.1, hm2.2, he,
    scattersColorStep, hv, ht, hU, hS, Bind.bind, Except.bind]

/-- Witness for C2 at the documented default velocity_key S. -/
theorem scatters_nonembedding_vkey_raises_witness :
    scatters_res adScattersLab ["g0"] 0 1 none "phase" "S" "X" "umap" none
      = .error (.exception (vkeyScattersMsg ("velocity_" ++ "S"))) :=
  scatters_nonembedding_vkey_raises adScattersLab ["g0"] 0 1 none "phase" "S" "X" "umap"
    (.dense [[0, 1]]) [0] [1]
    (some ((Mat.dense [[1]]).selectCols (matchedIdx adScattersLab ["g0"])))
    rfl rfl rfl rfl rfl rfl (by simp) rfl

/-- Counterexample for C2 as stated: when velocity_key itself contains the
substring velocity_, the name vkey is never assigned and scatters raises a
NameError rather than the no-vkey exception. -/
theorem scatters_vkey_nameerror_cx :
    scatters_res adScatters ["g0"] 0 1 none "phase" "velocity_S" "X" "umap" none
      = .error (.nameError "name vkey is not defined")
    ∧ scatters_res adScatters ["g0"] 0 1 none "phase" "velocity_S" "X" "umap" none
      ≠ .error (.exception (vkeyScattersMsg ("velocity_" ++ "velocity_S"))) := by
  have h : scatters_res adScatters ["g0"] 0 1 none "phase" "velocity_S" "X" "umap" none
      = .error (.nameError "name vkey is not defined") := rfl
  refine ⟨h, ?_⟩
  rw [h]
  simp [vkeyScattersMsg]
